import Mathlib

/-!
# Verification of the `agri_toolkit` field-boundary downloader

Shallow embedding of `src/agri_toolkit/downloaders/field_boundaries.py`
(class `FieldBoundaryDownloader`) and proofs about it.

Modelling conventions:

* A remote parquet row is a `SourceRow`.  Its geometry is abstracted by
  three observables: its planar area when expressed in the dataset's native
  CRS EPSG:5070 (`area5070`, in square metres, a rational), its planar area
  when expressed in EPSG:4326 (`area4326`), and the validity bit
  (`geomValid`) reported by the geometry engine (`is_valid`), which
  reprojection preserves.
* `ORDER BY random()` is modelled by quantifying over the order of the
  `source` list: the list passed to the query functions is the remote
  table *already in the random order chosen by the server*.  `LIMIT n`
  is `List.take n` of the filtered list.
* Python floats are modelled as rationals (`ℚ`).
* `raise` is modelled with `Except DownloadError`; the extra Boolean
  `queryIssued` in `DLOutcome` records whether the remote query was
  executed during the call (used for ordering claims).
* `download(**kwargs)` reads the keys `count`, `regions`, `crops`,
  `output_format` via `kwargs.get` and silently ignores every other
  keyword argument (standard `**kwargs` semantics).  We therefore give
  the model two extra arguments `minAcres` and `maxAcres` that represent
  the kwargs entries `min_acres` / `max_acres`; the body never reads them,
  exactly as the Python body never reads those keys.
-/

namespace AgriToolkit

/-- One row of the remote GeoParquet table, as far as the downloader
observes it. -/
structure SourceRow where
  id : String
  cropCode : String
  cropName : String
  cropCodeList : String
  /-- planar area of the geometry in the native CRS EPSG:5070 (m²) -/
  area5070 : ℚ
  /-- planar area of the geometry after reprojection to EPSG:4326 -/
  area4326 : ℚ
  /-- result of the geometry validity predicate (`is_valid`) -/
  geomValid : Bool
  deriving Repr, DecidableEq

/-- One record of the returned GeoDataFrame (column order
`field_id, region, state_fips, area_acres, crop_code, crop_name,
crop_code_list, geometry`). -/
structure FieldRecord where
  field_id : String
  region : String
  state_fips : String
  area_acres : ℚ
  crop_code : String
  crop_name : String
  crop_code_list : String
  /-- validity bit of the record's geometry -/
  geomValid : Bool
  deriving Repr, DecidableEq

/-- The returned GeoDataFrame: its records plus the CRS attached to it. -/
structure QueryOut where
  rows : List FieldRecord
  crs : String
  deriving Repr, DecidableEq

/-- A GeoDataFrame as `validate` observes it: its column names, the
validity bit of each row's geometry (one entry per row), and the optional
CRS. -/
structure GeoFrame where
  columns : List String
  geomsValid : List Bool
  crs : Option String
  deriving Repr, DecidableEq

/-- Table `REGION_STATE_FIPS`: mapping of regions to state FIPS codes. -/
def REGION_STATE_FIPS : List (String × List String) :=
  [("corn_belt", ["17", "19", "18", "39", "27"]),
   ("great_plains", ["20", "31", "46", "38", "48"]),
   ("southeast", ["05", "28", "22", "13"])]

/-- Table `CROP_TYPES`: crop type mappings (CDL codes). -/
def CROP_TYPES : List (String × List String) :=
  [("corn", ["1"]),
   ("soybeans", ["5"]),
   ("wheat", ["23", "24", "25", "26", "27"]),
   ("cotton", ["2"])]

/-- The region names (keys of `REGION_STATE_FIPS`). -/
def regionKeys : List String := REGION_STATE_FIPS.map Prod.fst

/-- The crop names (keys of `CROP_TYPES`). -/
def cropKeys : List String := CROP_TYPES.map Prod.fst

/-- FIPS codes of one region (`self.REGION_STATE_FIPS[region]`). -/
def regionFips (r : String) : List String :=
  ((REGION_STATE_FIPS.find? (fun p => p.1 == r)).map Prod.snd).getD []

/-- CDL codes of one crop (`self.CROP_TYPES[crop]`). -/
def cropTypeCodes (c : String) : List String :=
  ((CROP_TYPES.find? (fun p => p.1 == c)).map Prod.snd).getD []

/-- The `state_to_region` dict built in `_query_source_cooperative`:
reverse map from a state FIPS code to its region over the whole static
table (`.map` on the dataframe returns `None` for unmapped codes). -/
def stateToRegion (fips : String) : Option String :=
  (REGION_STATE_FIPS.find? (fun p => p.2.contains fips)).map Prod.fst

/-- The errors the downloader can raise.  `ValueError`s carry the data
their message interpolates; `RuntimeError`s are `queryFailed` /
`validationFailed`. -/
inductive DownloadError where
  /-- Python `ValueError("count must be at least 1")` -/
  | invalidCount : DownloadError
  /-- Python `ValueError("regions cannot be empty")` -/
  | emptyRegions : DownloadError
  /-- Python `ValueError("Invalid regions: %s. Valid options: %s")` -/
  | invalidRegions (bad : List String) (valid : List String) : DownloadError
  /-- Python `ValueError("Invalid crops: %s. Valid options: %s")` -/
  | invalidCrops (bad : List String) (valid : List String) : DownloadError
  /-- Python `RuntimeError("Data download failed: ...")` from the query step -/
  | queryFailed : DownloadError
  /-- Python `RuntimeError("Downloaded field data failed validation")` -/
  | validationFailed : DownloadError
  /-- Python `ValueError("Unsupported output format: %s. Use ...")` -/
  | unsupportedFormat (fmt : String) : DownloadError
  deriving Repr, DecidableEq

/-- square metres per acre: the constant `4046.86` of the source. -/
def acreSqMeters : ℚ := 404686 / 100

/-- Oversampling limit `request_count = max(count * 2, count + 10)`. -/
def requestCount (count : ℤ) : ℤ := max (count * 2) (count + 10)

/-- The SQL `WHERE` predicate of the remote query:
`substr(id, 1, 2) IN (state_filter) AND "crop:code" IN (crop_filter)`. -/
def rowMatches (stateFips cropCodes : List String) (row : SourceRow) : Bool :=
  stateFips.contains (row.id.take 2) && cropCodes.contains row.cropCode

/-- The rows materialized by the remote query: the matching rows of the
(randomly ordered) source, limited to `request_count`. -/
def fetchedRows (count : ℤ) (stateFips cropCodes : List String)
    (source : List SourceRow) : List SourceRow :=
  (source.filter (rowMatches stateFips cropCodes)).take (requestCount count).toNat

/-- Conversion of a fetched row into an output record: `field_id = id`,
`state_fips = substr(id, 1, 2)`, `area_acres = geometry.area / 4046.86`
computed on the EPSG:5070 geometry (before the reprojection to EPSG:4326);
the `region` column is filled later. -/
def mkRecord (row : SourceRow) : FieldRecord :=
  { field_id := row.id
    region := ""
    state_fips := row.id.take 2
    area_acres := row.area5070 / acreSqMeters
    crop_code := row.cropCode
    crop_name := row.cropName
    crop_code_list := row.cropCodeList
    geomValid := row.geomValid }

/-- The `region` label assigned to a row: the reverse-mapped region where
defined, else `"mixed"` when several regions were requested, else the
single requested region (`fillna`). -/
def regionLabel (regions : List String) (fips : String) : String :=
  match stateToRegion fips with
  | some r => r
  | none => if 1 < regions.length then "mixed" else regions.headD ""

/-- The `state_fips` list built from the requested regions
(`for region in regions: state_fips.extend(...)`). -/
def stateFipsOf (regions : List String) : List String :=
  regions.foldr (fun r acc => regionFips r ++ acc) []

/-- The `crop_codes` list built from the requested crops. -/
def cropCodesOf (crops : List String) : List String :=
  crops.foldr (fun c acc => cropTypeCodes c ++ acc) []

/-- The records with computed areas surviving the
`gdf[gdf["area_acres"] > 0]` post-filter. -/
def positiveRecords (count : ℤ) (regions crops : List String)
    (source : List SourceRow) : List FieldRecord :=
  ((fetchedRows count (stateFipsOf regions) (cropCodesOf crops) source).map
    mkRecord).filter (fun rec => decide (0 < rec.area_acres))

/-- The rows of the returned frame: the positive-area records truncated
to `count` (`gdf.iloc[:count]`), with the `region` column attached. -/
def outputRows (count : ℤ) (regions crops : List String)
    (source : List SourceRow) : List FieldRecord :=
  ((positiveRecords count regions crops source).take count.toNat).map
    (fun rec => { rec with region := regionLabel regions rec.state_fips })

/-- Method `_query_source_cooperative(count, regions, crops)`: build the filters,
run the (already randomly ordered) query, raise when it returns no rows,
compute areas in EPSG:5070, reproject to EPSG:4326, drop non-positive
areas, truncate to `count`, attach region labels. -/
def querySourceCooperative (count : ℤ) (regions crops : List String)
    (source : List SourceRow) : Except DownloadError QueryOut :=
  if (fetchedRows count (stateFipsOf regions) (cropCodesOf crops)
      source).isEmpty then
    .error .queryFailed
  else
    .ok { rows := outputRows count regions crops source, crs := "EPSG:4326" }

/-- The required columns of `validate`. -/
def requiredColumns : List String := ["field_id", "region", "geometry"]

/-- Method `validate(data)`: `False` when the frame is `None` or empty, when a
required column is missing, when any geometry is invalid or when no CRS is
set; `True` otherwise.  Total: never raises. -/
def validate (data : Option GeoFrame) : Bool :=
  match data with
  | none => false
  | some d =>
    if d.geomsValid.length == 0 then false
    else if !(requiredColumns.all (fun c => d.columns.contains c)) then false
    else if d.geomsValid.any (fun v => !v) then false
    else if d.crs.isNone then false
    else true

/-- The frame handed to `validate` by `download`: the eight output columns
in order, the geometry validity bits of the records, and the CRS. -/
def toGeoFrame (q : QueryOut) : GeoFrame :=
  { columns := ["field_id", "region", "state_fips", "area_acres",
                "crop_code", "crop_name", "crop_code_list", "geometry"]
    geomsValid := q.rows.map FieldRecord.geomValid
    crs := some q.crs }

/-- Method `_save_fields(gdf, output_format)`: returns the file name written, or
raises on an unsupported format. -/
def saveFields (fmt : String) : Except DownloadError String :=
  if fmt == "geojson" then .ok "fields.geojson"
  else if fmt == "shapefile" then .ok "fields.shp"
  else .error (.unsupportedFormat fmt)

/-- Result of a `download` call: whether the remote query was issued, and
the returned frame or the raised error. -/
structure DLOutcome where
  queryIssued : Bool
  result : Except DownloadError QueryOut
  deriving Repr

/-- Method `download(**kwargs)`.  `Option` arguments model present/absent kwargs;
`minAcres` / `maxAcres` model the kwargs entries `min_acres` / `max_acres`,
which the body never reads. -/
def download (count? : Option ℤ) (regions? : Option (List String))
    (crops? : Option (List String)) (outputFormat? : Option String)
    (minAcres : Option ℚ) (maxAcres : Option ℚ)
    (source : List SourceRow) : DLOutcome :=
  let count := count?.getD 200
  let outputFormat := outputFormat?.getD "geojson"
  if count < 1 then ⟨false, .error .invalidCount⟩
  else
    let regions := regions?.getD ["corn_belt"]
    if regions.isEmpty then ⟨false, .error .emptyRegions⟩
    else
      let invalidRegions := regions.filter (fun r => !(regionKeys.contains r))
      if !invalidRegions.isEmpty then
        ⟨false, .error (.invalidRegions invalidRegions regionKeys)⟩
      else
        let crops := crops?.getD ["corn", "soybeans"]
        let invalidCrops := crops.filter (fun c => !(cropKeys.contains c))
        if !invalidCrops.isEmpty then
          ⟨false, .error (.invalidCrops invalidCrops cropKeys)⟩
        else
          match querySourceCooperative count regions crops source with
          | .error e => ⟨true, .error e⟩
          | .ok gdf =>
            if !(validate (some (toGeoFrame gdf))) then
              ⟨true, .error .validationFailed⟩
            else
              match saveFields outputFormat with
              | .error e => ⟨true, .error e⟩
              | .ok _ => ⟨true, .ok gdf⟩

/-! ## Helper lemmas and concrete fixtures -/

lemma acre_pos : (0 : ℚ) < acreSqMeters := by norm_num [acreSqMeters]

lemma div_acre_pos_iff (a : ℚ) : 0 < a / acreSqMeters ↔ 0 < a :=
  div_pos_iff_of_pos_right acre_pos

lemma take_17 : "1700001".take 2 = "17" := rfl

/-- A matching, non-degenerate remote row: Illinois (FIPS 17, corn belt),
corn (CDL 1), exactly 100 acres. -/
def rowA : SourceRow :=
  { id := "1700001", cropCode := "1", cropName := "Corn", cropCodeList := "1,1",
    area5070 := 404686, area4326 := 1 / 100, geomValid := true }

/-- The output record produced from `rowA`. -/
def recA : FieldRecord :=
  { field_id := "1700001", region := "corn_belt", state_fips := "17",
    area_acres := 100, crop_code := "1", crop_name := "Corn",
    crop_code_list := "1,1", geomValid := true }

/-- The frame produced from the one-row source `[rowA]`. -/
def outA : QueryOut := { rows := [recA], crs := "EPSG:4326" }

lemma run_rowA :
    download (some 2) (some ["corn_belt"]) (some ["corn"]) (some "geojson")
      none none [rowA] = ⟨true, .ok outA⟩ := by
  simp +decide [download, querySourceCooperative, outputRows, positiveRecords,
    fetchedRows, rowMatches, requestCount, stateFipsOf, cropCodesOf,
    regionFips, cropTypeCodes, regionKeys, cropKeys, REGION_STATE_FIPS,
    CROP_TYPES, mkRecord, regionLabel, stateToRegion, validate, toGeoFrame,
    requiredColumns, saveFields, rowA, recA, outA, div_acre_pos_iff, take_17]
  norm_num [acreSqMeters]

/-! ## C6: the validation gate -/

/-- Characterization of `validate` on a present frame. -/
lemma validate_some_true_iff (g : GeoFrame) :
    validate (some g) = true ↔ g.geomsValid ≠ [] ∧
      (∀ c ∈ requiredColumns, c ∈ g.columns) ∧
      (∀ v ∈ g.geomsValid, v = true) ∧ g.crs ≠ none := by
  simp only [validate]
  split_ifs with e1 e2 e3 e4
  · simp only [beq_iff_eq, List.length_eq_zero] at e1
    simp [e1]
  · simp only [false_iff, not_and]
    intro _ hcols _
    simp only [Bool.not_eq_true', List.all_eq_false] at e2
    obtain ⟨c, hc, hcf⟩ := e2
    exact absurd (hcols c hc) (by simpa using hcf)
  · simp only [false_iff, not_and]
    intro _ _ hvalid
    simp only [List.any_eq_true, Bool.not_eq_true'] at e3
    obtain ⟨v, hv, hvf⟩ := e3
    exact absurd (hvalid v hv) (by simp [hvf])
  · simp only [Option.isNone_iff_eq_none] at e4
    simp [e4]
  · simp only [true_iff]
    refine ⟨?_, ?_, ?_, ?_⟩
    · intro h
      exact e1 (by simp [h])
    · intro c hc
      by_contra hcn
      refine e2 ?_
      simp only [Bool.not_eq_true', List.all_eq_false]
      exact ⟨c, hc, by simpa using hcn⟩
    · intro v hv
      simp only [List.any_eq_true, Bool.not_eq_true'] at e3
      push_neg at e3
      simpa using e3 v hv
    · intro h
      refine e4 ?_
      simp [h]

/-- C6: `validate` is a total Boolean function of the frame (it cannot
raise), and it returns `true` exactly when the frame is present and
non-empty, carries every required column, has only valid geometries, and
has a CRS attached — equivalently, it returns `false` exactly in the four
failure cases enumerated by the spec. -/
theorem validate_true_iff (d : Option GeoFrame) :
    validate d = true ↔ ∃ g, d = some g ∧ g.geomsValid ≠ [] ∧
      (∀ c ∈ requiredColumns, c ∈ g.columns) ∧
      (∀ v ∈ g.geomsValid, v = true) ∧ g.crs ≠ none := by
  cases d with
  | none => simp [validate]
  | some g => simpa using validate_some_true_iff g

/-! ## C9: the exact required-column set -/

/-- C9: The fixed required-column set of `validate` is exactly
`field_id`, `region`, `geometry`; any non-empty frame carrying those three
columns, only valid geometries and a CRS passes validation, regardless of
whether `area_acres`, `state_fips`, `crop_code`, `crop_name` or
`crop_code_list` are present. -/
theorem requiredColumns_exact :
    requiredColumns = ["field_id", "region", "geometry"] ∧
    ∀ g : GeoFrame, g.geomsValid ≠ [] →
      (∀ c ∈ requiredColumns, c ∈ g.columns) →
      (∀ v ∈ g.geomsValid, v = true) → g.crs ≠ none →
      validate (some g) = true := by
  exact ⟨rfl, fun g h1 h2 h3 h4 =>
    (validate_some_true_iff g).mpr ⟨h1, h2, h3, h4⟩⟩

/-- Witness for C9: the three-column frame (none of the five optional
columns present), one valid geometry, CRS set, passes validation. -/
theorem requiredColumns_exact_witness :
    validate (some { columns := ["field_id", "region", "geometry"],
                     geomsValid := [true], crs := some "EPSG:4326" }) = true := by
  refine requiredColumns_exact.2 _ (by simp) ?_ (by simp) (by simp)
  decide

/-! ## C5: rejection of invalid caller input before extraction -/

/-- C5: `download` rejects invalid caller input before any extraction
(`queryIssued = false`): every `count < 1` yields the count-specific
error; an explicitly empty regions list yields the empty-regions error;
any unresolved region or crop name yields an error that carries exactly
the offending names together with the full list of valid options — the
interpolated message data — so unresolved names are never silently
ignored. -/
theorem download_input_validation :
    (∀ (count : ℤ) (r? c? : Option (List String)) (f? : Option String)
        (mn mx : Option ℚ) (src : List SourceRow), count < 1 →
        download (some count) r? c? f? mn mx src =
          ⟨false, .error .invalidCount⟩) ∧
    (∀ (count : ℤ) (c? : Option (List String)) (f? : Option String)
        (mn mx : Option ℚ) (src : List SourceRow), 1 ≤ count →
        download (some count) (some []) c? f? mn mx src =
          ⟨false, .error .emptyRegions⟩) ∧
    (∀ (count : ℤ) (regions : List String) (c? : Option (List String))
        (f? : Option String) (mn mx : Option ℚ) (src : List SourceRow),
        1 ≤ count →
        regions.filter (fun r => !(regionKeys.contains r)) ≠ [] →
        download (some count) (some regions) c? f? mn mx src =
          ⟨false, .error (.invalidRegions
            (regions.filter (fun r => !(regionKeys.contains r)))
            regionKeys)⟩) ∧
    (∀ (count : ℤ) (regions crops : List String) (f? : Option String)
        (mn mx : Option ℚ) (src : List SourceRow), 1 ≤ count →
        regions ≠ [] →
        regions.filter (fun r => !(regionKeys.contains r)) = [] →
        crops.filter (fun c => !(cropKeys.contains c)) ≠ [] →
        download (some count) (some regions) (some crops) f? mn mx src =
          ⟨false, .error (.invalidCrops
            (crops.filter (fun c => !(cropKeys.contains c)))
            cropKeys)⟩) := by
  refine ⟨?_, ?_, ?_, ?_⟩
  · intro count r? c? f? mn mx src h
    simp [download, h]
  · intro count c? f? mn mx src h
    simp [download, Int.not_lt.mpr h]
  · intro count regions c? f? mn mx src h hbad
    have hr : regions ≠ [] := fun he => hbad (by simp [he])
    have hex : ∃ x ∈ regions, x ∉ regionKeys := by
      by_contra hno
      push_neg at hno
      exact hbad (List.filter_eq_nil_iff.mpr (fun a ha => by simp [hno a ha]))
    simp [download, Int.not_lt.mpr h, List.isEmpty_iff, hr, hex]
  · intro count regions crops f? mn mx src h hr hvr hbad
    have hreg : ∀ x ∈ regions, x ∈ regionKeys := by
      intro x hx
      have hn := List.filter_eq_nil_iff.mp hvr x hx
      simpa using hn
    have hex : ∃ x ∈ crops, x ∉ cropKeys := by
      by_contra hno
      push_neg at hno
      exact hbad (List.filter_eq_nil_iff.mpr (fun a ha => by simp [hno a ha]))
    simp [download, Int.not_lt.mpr h, List.isEmpty_iff, hr, hex]
    exact hreg

/-- Witness for C5: `count = 0` and `count = -1` fail with the
count-specific error; `regions = []` fails with the empty-regions error;
`regions = ["not_a_region"]` fails enumerating `["not_a_region"]` and the
valid region names; `crops = ["invalid_crop"]` fails enumerating
`["invalid_crop"]` and the valid crop names — all without issuing the
remote query. -/
theorem download_input_validation_witness :
    download (some 0) none none none none none [] =
      ⟨false, .error .invalidCount⟩ ∧
    download (some (-1)) none none none none none [] =
      ⟨false, .error .invalidCount⟩ ∧
    download (some 2) (some []) none none none none [] =
      ⟨false, .error .emptyRegions⟩ ∧
    download (some 2) (some ["not_a_region"]) none none none none [] =
      ⟨false, .error (.invalidRegions ["not_a_region"]
        ["corn_belt", "great_plains", "southeast"])⟩ ∧
    download (some 2) (some ["corn_belt"]) (some ["invalid_crop"]) none
        none none [] =
      ⟨false, .error (.invalidCrops ["invalid_crop"]
        ["corn", "soybeans", "wheat", "cotton"])⟩ :=
  ⟨download_input_validation.1 0 none none none none none [] (by decide),
   download_input_validation.1 (-1) none none none none none [] (by decide),
   download_input_validation.2.1 2 none none none none [] (by decide),
   download_input_validation.2.2.1 2 ["not_a_region"] none none none none []
     (by decide) (by decide),
   download_input_validation.2.2.2 2 ["corn_belt"] ["invalid_crop"] none
     none none [] (by decide) (by decide) (by decide) (by decide)⟩

/-! ## C10: kwargs defaults -/

/-- C10: Omitting `regions` behaves exactly as
`regions = ["corn_belt"]`, omitting `count` as `count = 200`, and
omitting `output_format` as `"geojson"`; only an explicitly supplied
empty regions list is rejected with the empty-regions error. -/
theorem download_defaults :
    (∀ (c? : Option ℤ) (cr? : Option (List String)) (f? : Option String)
        (mn mx : Option ℚ) (src : List SourceRow),
        download c? none cr? f? mn mx src =
          download c? (some ["corn_belt"]) cr? f? mn mx src) ∧
    (∀ (r? cr? : Option (List String)) (f? : Option String)
        (mn mx : Option ℚ) (src : List SourceRow),
        download none r? cr? f? mn mx src =
          download (some 200) r? cr? f? mn mx src) ∧
    (∀ (c? : Option ℤ) (r? cr? : Option (List String))
        (mn mx : Option ℚ) (src : List SourceRow),
        download c? r? cr? none mn mx src =
          download c? r? cr? (some "geojson") mn mx src) ∧
    (∀ (count : ℤ) (cr? : Option (List String)) (f? : Option String)
        (mn mx : Option ℚ) (src : List SourceRow), 1 ≤ count →
        download (some count) (some []) cr? f? mn mx src =
          ⟨false, .error .emptyRegions⟩) := by
  refine ⟨fun _ _ _ _ _ _ => rfl, fun _ _ _ _ _ _ => rfl,
    fun _ _ _ _ _ _ => rfl, ?_⟩
  intro count cr? f? mn mx src h
  simp [download, Int.not_lt.mpr h]

/-- Witness for C10: at `count = 3` the explicitly empty regions list is
rejected with the empty-regions error before any query. -/
theorem download_defaults_witness :
    download (some 3) (some []) none none none none [rowA] =
      ⟨false, .error .emptyRegions⟩ :=
  download_defaults.2.2.2 3 none none none none [rowA] (by decide)

/-! ## Reduction helpers for the query pipeline -/

lemma query_ok_iff (count : ℤ) (regions crops : List String)
    (source : List SourceRow) (q : QueryOut) :
    querySourceCooperative count regions crops source = .ok q ↔
      fetchedRows count (stateFipsOf regions) (cropCodesOf crops) source ≠ [] ∧
      q = ⟨outputRows count regions crops source, "EPSG:4326"⟩ := by
  unfold querySourceCooperative
  split_ifs with h
  · simp only [List.isEmpty_iff] at h
    simp [h]
  · simp only [List.isEmpty_iff] at h
    constructor
    · intro he
      exact ⟨h, by cases he; rfl⟩
    · rintro ⟨-, rfl⟩
      rfl

lemma query_error_iff (count : ℤ) (regions crops : List String)
    (source : List SourceRow) (e : DownloadError) :
    querySourceCooperative count regions crops source = .error e ↔
      fetchedRows count (stateFipsOf regions) (cropCodesOf crops) source = [] ∧
      e = .queryFailed := by
  unfold querySourceCooperative
  split_ifs with h
  · simp only [List.isEmpty_iff] at h
    constructor
    · intro he
      exact ⟨h, by cases he; rfl⟩
    · rintro ⟨-, rfl⟩
      rfl
  · simp only [List.isEmpty_iff] at h
    simp [h]

lemma download_reduces (count : ℤ) (regions crops : List String)
    (f? : Option String) (mn mx : Option ℚ) (src : List SourceRow)
    (hc : 1 ≤ count) (hr : regions ≠ [])
    (hvr : regions.filter (fun r => !(regionKeys.contains r)) = [])
    (hvc : crops.filter (fun c => !(cropKeys.contains c)) = []) :
    download (some count) (some regions) (some crops) f? mn mx src =
      match querySourceCooperative count regions crops src with
      | .error e => ⟨true, .error e⟩
      | .ok gdf =>
        if !(validate (some (toGeoFrame gdf))) then
          ⟨true, .error .validationFailed⟩
        else
          match saveFields (f?.getD "geojson") with
          | .error e => ⟨true, .error e⟩
          | .ok _ => ⟨true, .ok gdf⟩ := by
  have hreg : ∀ x ∈ regions, x ∈ regionKeys := fun x hx => by
    simpa using List.filter_eq_nil_iff.mp hvr x hx
  have hcr : ∀ x ∈ crops, x ∈ cropKeys := fun x hx => by
    simpa using List.filter_eq_nil_iff.mp hvc x hx
  have h1 : ¬count < 1 := Int.not_lt.mpr hc
  have h2 : ¬regions.isEmpty = true := by simp [List.isEmpty_iff, hr]
  have h3 : ¬(!(regions.filter
      (fun r => !(regionKeys.contains r))).isEmpty) = true := by
    rw [hvr]
    simp
  have h4 : ¬(!(crops.filter
      (fun c => !(cropKeys.contains c))).isEmpty) = true := by
    rw [hvc]
    simp
  simp only [download, Option.getD_some, if_neg h1, if_neg h2, if_neg h3,
    if_neg h4]

lemma download_ok_shape (c? : Option ℤ) (r? cr? : Option (List String))
    (f? : Option String) (mn mx : Option ℚ) (src : List SourceRow)
    (q : QueryOut)
    (h : (download c? r? cr? f? mn mx src).result = .ok q) :
    q.rows = outputRows (c?.getD 200) (r?.getD ["corn_belt"])
        (cr?.getD ["corn", "soybeans"]) src ∧
      q.crs = "EPSG:4326" := by
  simp only [download] at h
  split at h
  · simp at h
  · split at h
    · simp at h
    · split at h
      · simp at h
      · split at h
        · simp at h
        · split at h
          · simp at h
          · rename_i gdf hq
            split at h
            · simp at h
            · split at h
              · simp at h
              · simp only [Except.ok.injEq] at h
                have hsh := (query_ok_iff _ _ _ _ _).mp hq
                rw [← h, hsh.2]
                exact ⟨rfl, rfl⟩

lemma mem_stateFipsOf (regions : List String) (x : String) :
    x ∈ stateFipsOf regions ↔ ∃ r ∈ regions, x ∈ regionFips r := by
  unfold stateFipsOf
  induction regions with
  | nil => simp
  | cons a l ih => simp [List.mem_append, ih]

lemma mem_cropCodesOf (crops : List String) (x : String) :
    x ∈ cropCodesOf crops ↔ ∃ c ∈ crops, x ∈ cropTypeCodes c := by
  unfold cropCodesOf
  induction crops with
  | nil => simp
  | cons a l ih => simp [List.mem_append, ih]

/-- Tracing an output record back to the remote row it came from. -/
lemma outputRows_mem {count : ℤ} {regions crops : List String}
    {source : List SourceRow} {rec : FieldRecord}
    (h : rec ∈ outputRows count regions crops source) :
    ∃ row ∈ source,
      rowMatches (stateFipsOf regions) (cropCodesOf crops) row = true ∧
      rec.field_id = row.id ∧ rec.state_fips = row.id.take 2 ∧
      rec.area_acres = row.area5070 / acreSqMeters ∧
      rec.crop_code = row.cropCode ∧ rec.geomValid = row.geomValid ∧
      rec.region = regionLabel regions (row.id.take 2) ∧
      0 < rec.area_acres := by
  unfold outputRows at h
  obtain ⟨rec', hmem1, hrec⟩ := List.mem_map.mp h
  have hmem2 : rec' ∈ positiveRecords count regions crops source :=
    List.take_subset _ _ hmem1
  unfold positiveRecords at hmem2
  obtain ⟨hmem3, hpos⟩ := List.mem_filter.mp hmem2
  obtain ⟨row, hrow, hrec'⟩ := List.mem_map.mp hmem3
  have hfetched : row ∈ (source.filter
      (rowMatches (stateFipsOf regions) (cropCodesOf crops))) := by
    have := hrow
    unfold fetchedRows at this
    exact List.take_subset _ _ this
  obtain ⟨hsrc, hmatch⟩ := List.mem_filter.mp hfetched
  subst hrec'
  subst hrec
  refine ⟨row, hsrc, hmatch, rfl, rfl, rfl, rfl, rfl, rfl, ?_⟩
  simpa using of_decide_eq_true hpos

/-! ## C8: area computation and output CRS -/

/-- C8: The acre conversion constant is exactly `4046.86` m²/acre;
every record of a successful `download` carries
`area_acres = (planar area of the source row in the native equal-area
CRS EPSG:5070) / 4046.86` — i.e. the area is taken from the EPSG:5070
geometry, before the reprojection, never from the EPSG:4326 geometry —
and the returned frame's CRS is `EPSG:4326`. -/
theorem area_from_equal_area_crs :
    acreSqMeters = 404686 / 100 ∧
    ∀ (c? : Option ℤ) (r? cr? : Option (List String)) (f? : Option String)
      (mn mx : Option ℚ) (src : List SourceRow) (q : QueryOut),
      (download c? r? cr? f? mn mx src).result = .ok q →
      q.crs = "EPSG:4326" ∧
      ∀ rec ∈ q.rows, ∃ row ∈ src, rec.field_id = row.id ∧
        rec.area_acres = row.area5070 / acreSqMeters := by
  refine ⟨rfl, ?_⟩
  intro c? r? cr? f? mn mx src q h
  obtain ⟨hrows, hcrs⟩ := download_ok_shape _ _ _ _ _ _ _ _ h
  refine ⟨hcrs, ?_⟩
  intro rec hrec
  rw [hrows] at hrec
  obtain ⟨row, hsrc, -, hid, -, harea, -⟩ := outputRows_mem hrec
  exact ⟨row, hsrc, hid, harea⟩

/-- Witness for C8: on the one-row source, the returned frame is in
EPSG:4326 and the record's acreage is the EPSG:5070 planar area of the
source row divided by the conversion constant. -/
theorem area_from_equal_area_crs_witness :
    outA.crs = "EPSG:4326" ∧ recA.field_id = rowA.id ∧
      recA.area_acres = rowA.area5070 / acreSqMeters := by
  have h := area_from_equal_area_crs.2 (some 2) (some ["corn_belt"])
    (some ["corn"]) (some "geojson") none none [rowA] outA
    (by rw [run_rowA])
  obtain ⟨row, hrow, hid, harea⟩ := h.2 recA (by simp [outA])
  rw [List.mem_singleton] at hrow
  subst hrow
  exact ⟨h.1, hid, harea⟩

/-! ## C4: region labels on returned records -/

/-- C4: Every record returned by `download` has its region label
derived by reverse-mapping its state FIPS code: its code always lies in
the union of the requested regions' code sets; a mapped code gets the
mapped region; an unmapped code gets `"mixed"` when more than one region
was requested and the single requested region when exactly one was. -/
theorem region_label_spec :
    ∀ (c? : Option ℤ) (r? cr? : Option (List String)) (f? : Option String)
      (mn mx : Option ℚ) (src : List SourceRow) (q : QueryOut),
      (download c? r? cr? f? mn mx src).result = .ok q →
      ∀ rec ∈ q.rows,
        rec.state_fips ∈ stateFipsOf (r?.getD ["corn_belt"]) ∧
        (∀ r, stateToRegion rec.state_fips = some r → rec.region = r) ∧
        (stateToRegion rec.state_fips = none →
          (1 < (r?.getD ["corn_belt"]).length → rec.region = "mixed") ∧
          ((r?.getD ["corn_belt"]).length = 1 →
            rec.region = (r?.getD ["corn_belt"]).headD "")) := by
  intro c? r? cr? f? mn mx src q h rec hrec
  obtain ⟨hrows, -⟩ := download_ok_shape _ _ _ _ _ _ _ _ h
  rw [hrows] at hrec
  obtain ⟨row, hsrc, hmatch, -, hfips, -, -, -, hregion, -⟩ :=
    outputRows_mem hrec
  unfold rowMatches at hmatch
  obtain ⟨hst, -⟩ := Bool.and_eq_true_iff.mp hmatch
  have hlabel : rec.region = regionLabel (r?.getD ["corn_belt"])
      rec.state_fips := by
    rw [hfips]
    exact hregion
  refine ⟨?_, ?_, ?_⟩
  · rw [hfips]
    simpa using hst
  · intro r hsr
    rw [hlabel]
    unfold regionLabel
    rw [hsr]
  · intro hnone
    rw [hlabel]
    unfold regionLabel
    rw [hnone]
    constructor
    · intro hlen
      rw [if_pos hlen]
    · intro hlen
      rw [if_neg (by rw [hlen]
                     decide)]

/-- Witness for C4: the record returned for the Illinois row under the
single requested region `corn_belt` has its FIPS code `17` in the
region's code set and is labeled by the reverse map. -/
theorem region_label_spec_witness :
    recA.state_fips ∈ stateFipsOf ["corn_belt"] ∧
    (∀ r, stateToRegion recA.state_fips = some r → recA.region = r) ∧
    (stateToRegion recA.state_fips = none →
      (1 < (["corn_belt"] : List String).length → recA.region = "mixed") ∧
      ((["corn_belt"] : List String).length = 1 →
        recA.region = (["corn_belt"] : List String).headD "")) :=
  region_label_spec (some 2) (some ["corn_belt"]) (some ["corn"])
    (some "geojson") none none [rowA] outA (by rw [run_rowA]) recA
    (by simp [outA])

/-! ## C7: the constructed remote query -/

/-- C7: The remote query restricts to rows whose first-two-character
administrative code is in the union of state codes over the requested
regions and whose crop code is in the union of CDL codes over the
requested crops, and limits the result to
`max(2 * count, count + 10)` rows of the randomized order (here: the
order of `source`, which stands for the server-chosen random order):
the fetched rows are the first `limit` matching rows, every fetched row
satisfies both filters, and the fetched length is
`min limit (number of matching rows)`. -/
theorem remote_query_spec :
    ∀ (count : ℤ) (regions crops : List String) (source : List SourceRow),
      requestCount count = max (count * 2) (count + 10) ∧
      (∀ x, x ∈ stateFipsOf regions ↔ ∃ r ∈ regions, x ∈ regionFips r) ∧
      (∀ x, x ∈ cropCodesOf crops ↔ ∃ c ∈ crops, x ∈ cropTypeCodes c) ∧
      (fetchedRows count (stateFipsOf regions) (cropCodesOf crops)
        source).Sublist (source.filter
          (rowMatches (stateFipsOf regions) (cropCodesOf crops))) ∧
      (fetchedRows count (stateFipsOf regions) (cropCodesOf crops)
          source).length =
        min (requestCount count).toNat
          (source.filter
            (rowMatches (stateFipsOf regions) (cropCodesOf crops))).length ∧
      ∀ row ∈ fetchedRows count (stateFipsOf regions) (cropCodesOf crops)
          source,
        row.id.take 2 ∈ stateFipsOf regions ∧
        row.cropCode ∈ cropCodesOf crops := by
  intro count regions crops source
  refine ⟨rfl, mem_stateFipsOf regions, mem_cropCodesOf crops, ?_, ?_, ?_⟩
  · unfold fetchedRows
    exact List.take_sublist _ _
  · unfold fetchedRows
    exact List.length_take _ _
  · intro row hrow
    have hf : row ∈ source.filter
        (rowMatches (stateFipsOf regions) (cropCodesOf crops)) := by
      unfold fetchedRows at hrow
      exact List.take_subset _ _ hrow
    have hmatch := (List.mem_filter.mp hf).2
    unfold rowMatches at hmatch
    obtain ⟨h1, h2⟩ := Bool.and_eq_true_iff.mp hmatch
    exact ⟨by simpa using h1, by simpa using h2⟩

/-- Witness for C7: the Illinois corn row fetched from the one-row source
satisfies both pushed-down filters. -/
theorem remote_query_spec_witness :
    rowA.id.take 2 ∈ stateFipsOf ["corn_belt"] ∧
    rowA.cropCode ∈ cropCodesOf ["corn"] :=
  (remote_query_spec 2 ["corn_belt"] ["corn"] [rowA]).2.2.2.2.2 rowA
    (List.mem_cons_self _ _)

/-! ## C2: the acreage bounds -/

/-- C2 counterexample: Supplying `min_acres = 1000`,
`max_acres = 2000` does not restrict the result: the 100-acre record is
returned although its acreage lies outside `[1000, 2000]`, so the bounds
do not affect which records are returned. -/
theorem acreage_bounds_counterexample :
    (download (some 1) (some ["corn_belt"]) (some ["corn"]) (some "geojson")
      (some 1000) (some 2000) [rowA]).result = .ok outA ∧
    recA ∈ outA.rows ∧ recA.area_acres < 1000 := by
  refine ⟨?_, by simp [outA], by norm_num [recA]⟩
  simp +decide [download, querySourceCooperative, outputRows, positiveRecords,
    fetchedRows, rowMatches, requestCount, stateFipsOf, cropCodesOf,
    regionFips, cropTypeCodes, regionKeys, cropKeys, REGION_STATE_FIPS,
    CROP_TYPES, mkRecord, regionLabel, stateToRegion, validate, toGeoFrame,
    requiredColumns, saveFields, rowA, recA, outA, div_acre_pos_iff, take_17]
  norm_num [acreSqMeters]

/-- C2 amended: `download` accepts the `min_acres` / `max_acres`
keyword arguments but never reads them: the outcome is identical for any
two choices of bounds, and no acreage restriction is applied to the
remote query. -/
theorem acreage_bounds_ignored :
    ∀ (c? : Option ℤ) (r? cr? : Option (List String)) (f? : Option String)
      (mn mx mn' mx' : Option ℚ) (src : List SourceRow),
      download c? r? cr? f? mn mx src = download c? r? cr? f? mn' mx' src :=
  fun _ _ _ _ _ _ _ _ _ => rfl

/-! ## C3: ordering of caller-input errors relative to the remote query -/

lemma run_rowA_csv :
    download (some 2) (some ["corn_belt"]) (some ["corn"]) (some "csv")
      none none [rowA] = ⟨true, .error (.unsupportedFormat "csv")⟩ := by
  simp +decide [download, querySourceCooperative, outputRows,
    positiveRecords, fetchedRows, rowMatches, requestCount, stateFipsOf,
    cropCodesOf, regionFips, cropTypeCodes, regionKeys, cropKeys,
    REGION_STATE_FIPS, CROP_TYPES, mkRecord, regionLabel, stateToRegion,
    validate, toGeoFrame, requiredColumns, saveFields, rowA,
    div_acre_pos_iff, take_17]
  norm_num [acreSqMeters]

lemma run_empty_csv :
    download (some 2) (some ["corn_belt"]) (some ["corn"]) (some "csv")
      none none [] = ⟨true, .error .queryFailed⟩ := by
  simp +decide [download, querySourceCooperative, outputRows,
    positiveRecords, fetchedRows, rowMatches, requestCount, stateFipsOf,
    cropCodesOf, regionFips, cropTypeCodes, regionKeys, cropKeys,
    REGION_STATE_FIPS, CROP_TYPES, saveFields]

/-- C3 counterexample: A `download` call with the unsupported output
format `"csv"` does contact the remote source: the query is issued
(`queryIssued = true`) and the outcome even depends on the remote data —
with a non-empty source the call fails with the unsupported-format error,
with an empty source it fails with the query error instead. -/
theorem format_error_after_query_counterexample :
    download (some 2) (some ["corn_belt"]) (some ["corn"]) (some "csv")
      none none [rowA] = ⟨true, .error (.unsupportedFormat "csv")⟩ ∧
    download (some 2) (some ["corn_belt"]) (some ["corn"]) (some "csv")
      none none [] = ⟨true, .error .queryFailed⟩ :=
  ⟨run_rowA_csv, run_empty_csv⟩

/-- C3 amended: The bad-caller-input errors relating to count,
regions and crops are raised before any remote query is issued
(`queryIssued = false`, and their payloads enumerate the offending names
and the valid options — see the input-validation theorem); the
unsupported-output-format error, by contrast, is only ever raised after
the remote query has been issued (`queryIssued = true`). -/
theorem caller_error_ordering :
    ∀ (c? : Option ℤ) (r? cr? : Option (List String)) (f? : Option String)
      (mn mx : Option ℚ) (src : List SourceRow),
      ((download c? r? cr? f? mn mx src).result = .error .invalidCount →
        (download c? r? cr? f? mn mx src).queryIssued = false) ∧
      ((download c? r? cr? f? mn mx src).result = .error .emptyRegions →
        (download c? r? cr? f? mn mx src).queryIssued = false) ∧
      (∀ bad valid,
        (download c? r? cr? f? mn mx src).result =
            .error (.invalidRegions bad valid) →
          (download c? r? cr? f? mn mx src).queryIssued = false) ∧
      (∀ bad valid,
        (download c? r? cr? f? mn mx src).result =
            .error (.invalidCrops bad valid) →
          (download c? r? cr? f? mn mx src).queryIssued = false) ∧
      (∀ fmt,
        (download c? r? cr? f? mn mx src).result =
            .error (.unsupportedFormat fmt) →
          (download c? r? cr? f? mn mx src).queryIssued = true) := by
  intro c? r? cr? f? mn mx src
  simp only [download]
  repeat' split
  all_goals try simp
  · rename_i x e heq
    obtain ⟨-, rfl⟩ := (query_error_iff _ _ _ _ _).mp heq
    simp
  · rename_i x e heq
    unfold saveFields at heq
    split_ifs at heq <;> cases heq
    simp

/-- Witness for C3: under valid count/regions/crops and the unsupported
format `"csv"` on the one-row source, the call fails with the
unsupported-format error and the remote query was issued. -/
theorem caller_error_ordering_witness :
    (download (some 2) (some ["corn_belt"]) (some ["corn"]) (some "csv")
      none none [rowA]).queryIssued = true :=
  (caller_error_ordering (some 2) (some ["corn_belt"]) (some ["corn"])
    (some "csv") none none [rowA]).2.2.2.2 "csv"
    (by rw [run_rowA_csv])

/-! ## C1: batch size semantics -/

/-- C1 counterexample: With `count = 2` and a remote source holding
exactly one matching, non-degenerate row, the claim requires the call to
fail; instead `download` succeeds and returns a non-empty collection of
one record — fewer than `count`. -/
theorem full_batch_counterexample :
    ([rowA].filter (rowMatches (stateFipsOf ["corn_belt"])
      (cropCodesOf ["corn"]))).length = 1 ∧
    (0 : ℚ) < rowA.area5070 ∧
    (download (some 2) (some ["corn_belt"]) (some ["corn"]) (some "geojson")
      none none [rowA]).result = .ok outA ∧
    outA.rows.length = 1 := by
  refine ⟨rfl, by norm_num [rowA], ?_, rfl⟩
  rw [run_rowA]

/-- C1 amended: On valid input, `download` is best-effort up to
`count`: when the remote query fetches no matching rows at all the call
fails with the query error; otherwise (with all fetched geometries valid
and at least one positive-area record) it succeeds and returns
`min(count, number of positive-area fetched records)` records — which
can be a non-empty collection of fewer than `count` records. -/
theorem batch_size_amended :
    ∀ (count : ℤ) (regions crops : List String) (fmt : String)
      (mn mx : Option ℚ) (src : List SourceRow),
      1 ≤ count → regions ≠ [] →
      regions.filter (fun r => !(regionKeys.contains r)) = [] →
      crops.filter (fun c => !(cropKeys.contains c)) = [] →
      (fmt = "geojson" ∨ fmt = "shapefile") →
      ((fetchedRows count (stateFipsOf regions) (cropCodesOf crops) src =
          [] →
        (download (some count) (some regions) (some crops) (some fmt) mn mx
          src).result = .error .queryFailed) ∧
       (positiveRecords count regions crops src ≠ [] →
        (∀ rec ∈ positiveRecords count regions crops src,
          rec.geomValid = true) →
        (download (some count) (some regions) (some crops) (some fmt) mn mx
            src).result =
          .ok ⟨outputRows count regions crops src, "EPSG:4326"⟩ ∧
        (outputRows count regions crops src).length =
          min count.toNat (positiveRecords count regions crops src).length)) := by
  intro count regions crops fmt mn mx src hc hr hvr hvc hfmt
  have hred := download_reduces count regions crops (some fmt) mn mx src
    hc hr hvr hvc
  constructor
  · intro hempty
    rw [hred]
    rw [(query_error_iff count regions crops src .queryFailed).mpr
      ⟨hempty, rfl⟩]
  · intro hpos hvalidgeom
    have hfetch : fetchedRows count (stateFipsOf regions) (cropCodesOf crops)
        src ≠ [] := by
      intro he
      apply hpos
      unfold positiveRecords
      rw [he]
      rfl
    have hqok : querySourceCooperative count regions crops src =
        .ok ⟨outputRows count regions crops src, "EPSG:4326"⟩ :=
      (query_ok_iff count regions crops src _).mpr ⟨hfetch, rfl⟩
    have hout_ne : outputRows count regions crops src ≠ [] := by
      unfold outputRows
      simp only [ne_eq, List.map_eq_nil_iff, List.take_eq_nil_iff]
      push_neg
      refine ⟨?_, hpos⟩
      omega
    have hval : validate (some (toGeoFrame
        ⟨outputRows count regions crops src, "EPSG:4326"⟩)) = true := by
      apply (validate_some_true_iff _).mpr
      refine ⟨?_, ?_, ?_, by simp [toGeoFrame]⟩
      · simpa [toGeoFrame] using hout_ne
      · intro c hc
        simp only [requiredColumns] at hc
        fin_cases hc <;> simp [toGeoFrame]
      · intro v hv
        simp only [toGeoFrame, List.mem_map] at hv
        obtain ⟨rec, hrec, rfl⟩ := hv
        unfold outputRows at hrec
        obtain ⟨rec', h1, rfl⟩ := List.mem_map.mp hrec
        exact hvalidgeom rec' (List.take_subset _ _ h1)
    have hlen : (outputRows count regions crops src).length =
        min count.toNat (positiveRecords count regions crops src).length := by
      unfold outputRows
      rw [List.length_map, List.length_take]
    refine ⟨?_, hlen⟩
    rw [hred, hqok]
    split
    · rename_i e heq
      cases heq
    · rename_i gdf heq
      injection heq with heq
      subst heq
      rw [if_neg (by rw [hval]; simp)]
      rcases hfmt with rfl | rfl <;> rfl

/-- Witness for C1 (amended): with `count = 2` over the one-row source,
the call succeeds and returns `min 2 1 = 1` record. -/
theorem batch_size_amended_witness :
    (download (some 2) (some ["corn_belt"]) (some ["corn"]) (some "geojson")
        none none [rowA]).result =
      .ok ⟨outputRows 2 ["corn_belt"] ["corn"] [rowA], "EPSG:4326"⟩ ∧
    (outputRows 2 ["corn_belt"] ["corn"] [rowA]).length =
      min (2 : ℤ).toNat (positiveRecords 2 ["corn_belt"] ["corn"]
        [rowA]).length := by
  have hposel : positiveRecords 2 ["corn_belt"] ["corn"] [rowA] =
      [mkRecord rowA] := by
    simp +decide [positiveRecords, fetchedRows, rowMatches, requestCount,
      stateFipsOf, cropCodesOf, regionFips, cropTypeCodes, REGION_STATE_FIPS,
      CROP_TYPES, mkRecord, rowA, div_acre_pos_iff]
    norm_num [acreSqMeters]
  exact (batch_size_amended 2 ["corn_belt"] ["corn"] "geojson" none none
      [rowA] (by decide) (by decide) (by decide) (by decide) (Or.inl rfl)).2
    (by rw [hposel]
        simp)
    (by rw [hposel]
        intro rec hrec
        rw [List.mem_singleton] at hrec
        subst hrec
        rfl)

end AgriToolkit
